import Mathlib

/-!
Shallow embedding of the LINE messaging client core
(packages/messaging-api-line/src/LineClient.ts): the unified send
dispatcher, per-call credential resolution, cursor pagination
accumulation, and error normalization, together with theorems about the
specified behaviour.
-/

namespace LineClientModel

/-- A field-level entry of the `details` array inside a structured LINE API
error body, as destructured by `handleError`. -/
structure ErrorDetail where
  property : String
  message : String
deriving DecidableEq

/-- The structured API error body `err.response.data` consumed by
`handleError`: a top-level `message` and an optional `details` list. -/
structure ApiErrorData where
  message : String
  details : Option (List ErrorDetail)
deriving DecidableEq

/-- The HTTP response attached to a failed call: the status code and the
optional structured error body. `data = none` models a response with no
structured body. -/
structure ErrResponse where
  status : Nat
  data : Option ApiErrorData
deriving DecidableEq

/-- A transport-level failure as consumed by `handleError`: a raw message
and an optional HTTP response. `response = none` models a pure transport
failure such as DNS, timeout or connection reset. The same shape models
the `AxiosError` value thrown by `handleError`, since that constructor
copies the response of the original failure onto the new error. -/
structure AxiosErr where
  message : String
  response : Option ErrResponse
deriving DecidableEq

/-- One line appended by the `details.forEach` loop in `handleError`,
line 54 of LineClient.ts. -/
def detailLine (d : ErrorDetail) : String :=
  "\n- " ++ d.property ++ ": " ++ d.message

/-- The display message built by `handleError` when a structured body is
present, lines 50-56: the base is prefixed with `LINE API - ` and, when
the `details` field is present and non-empty, one `detailLine` per detail
is appended in order. -/
def apiErrorMessage (d : ApiErrorData) : String :=
  let base := "LINE API - " ++ d.message
  match d.details with
  | some ds => if ds.length > 0 then base ++ String.join (ds.map detailLine) else base
  | none => base

/-- Embedding of `handleError`, LineClient.ts lines 37-60. The source
always throws; this function returns the `AxiosError` value thrown. When
`err.response && err.response.data` holds, the thrown error carries the
formatted API message; otherwise it carries the raw failure message. In
both cases the thrown `AxiosError` retains the original response, so the
original failure stays inspectable downstream. -/
def handleError (err : AxiosErr) : AxiosErr :=
  match err.response with
  | some r =>
    match r.data with
    | some d => { message := apiErrorMessage d, response := err.response }
    | none => { message := err.message, response := err.response }
  | none => { message := err.message, response := err.response }

/-- Immutable client configuration captured by the constructor,
LineClient.ts lines 78-127: the instance fields set there and never
assigned anywhere else in the class. The request observer is modelled by
an optional identifying name, `none` meaning the library default
`onRequest` was installed. -/
structure ClientState where
  accessToken : String
  channelSecret : Option String
  origin : Option String
  onRequestCustom : Option String
deriving DecidableEq

/-- Constructor argument, lines 78-94: either a positional access token
with an optional channel secret, or a config object. -/
inductive CtorArg where
  | token (accessToken : String) (channelSecret : Option String)
  | config (accessToken : String) (channelSecret : String)
      (origin : Option String) (onRequest : Option String)
deriving DecidableEq

/-- Embedding of the `LineClient` constructor, lines 78-127. The config
branch takes the fields from the object, defaulting the observer; the
positional branch takes the token and optional secret and installs the
default observer. -/
def mkLineClient : CtorArg → ClientState
  | .token t cs =>
      { accessToken := t, channelSecret := cs, origin := none
        onRequestCustom := none }
  | .config t cs o obs =>
      { accessToken := t, channelSecret := some cs, origin := o
        onRequestCustom := obs }

/-- JS `a || b` on an optional string: an absent or empty string falls
through to the default. Used for the `origin` default on line 97. -/
def jsOr (o : Option String) (d : String) : String :=
  match o with
  | some s => if s = "" then d else s
  | none => d

/-- The axios `baseURL` set at construction, line 97. -/
def baseURL (c : ClientState) : String :=
  jsOr c.origin "https://api.line.me" ++ "/"

/-- The runtime value passed as a send target. The `as` casts inside
`_send` do not change the value, so any shape can reach any branch. -/
inductive JsTarget where
  | str (s : String)
  | arr (ids : List String)
deriving DecidableEq

/-- Request body as handed to axios by the embedded endpoints. `α` is the
opaque message payload type: messages are carried, never inspected. -/
inductive ReqBody (α : Type) where
  | replyBody (replyToken : JsTarget) (messages : List α)
  | pushBody (toField : JsTarget) (messages : List α)
  | multicastBody (toField : JsTarget) (messages : List α)
  | richMenuBinary
  | jsonNull
  | noBody
deriving DecidableEq

/-- One outgoing HTTP request as issued through the axios instance: the
method, the path given to axios, the resolved Authorization header, the
effective Content-Type, and the body. -/
structure Request (α : Type) where
  method : String
  url : String
  authorization : String
  contentType : String
  body : ReqBody α
deriving DecidableEq

/-- Authorization header produced by the pattern
`customAccessToken === undefined ? undefined : ...headers...` used by the
JSON endpoints, e.g. lines 464-468: an override present in the options
object — even the empty string — replaces the instance default; an absent
override leaves the instance-level `Bearer` header in place. -/
def authUndefCheck (c : ClientState) (customAccessToken : Option String) : String :=
  match customAccessToken with
  | some t => "Bearer " ++ t
  | none => "Bearer " ++ c.accessToken

/-- Authorization header produced by the truthiness-spread pattern
`...(customAccessToken && ...Authorization...)` used by
`uploadRichMenuImage` (line 1552) and `downloadRichMenuImage`
(line 1568): the override is spread into the headers only when truthy, so
an empty-string override is dropped and the instance default wins. -/
def authTruthyCheck (c : ClientState) (customAccessToken : Option String) : String :=
  match customAccessToken with
  | some t => if t = "" then "Bearer " ++ c.accessToken else "Bearer " ++ t
  | none => "Bearer " ++ c.accessToken

section Endpoints

variable {α ρ : Type}

/-- Embedding of `replyRawBody`, lines 453-471: one POST to
`/v2/bot/message/reply` with body consisting of `replyToken` and
`messages`; a successful response resolves to its data, a failure is
normalized by `handleError`. The `resp` argument is the transport's
outcome for the single request; the second component is the list of
requests issued. -/
def replyRawBody (c : ClientState) (replyToken : JsTarget) (messages : List α)
    (customAccessToken : Option String) (resp : Except AxiosErr ρ) :
    Except AxiosErr ρ × List (Request α) :=
  let req : Request α :=
    { method := "post", url := "/v2/bot/message/reply"
      authorization := authUndefCheck c customAccessToken
      contentType := "application/json"
      body := ReqBody.replyBody replyToken messages }
  match resp with
  | .ok d => (.ok d, [req])
  | .error e => (.error (handleError e), [req])

/-- Embedding of `reply`, lines 473-479: builds the raw body from its
arguments and forwards to `replyRawBody`. -/
def reply (c : ClientState) (replyToken : JsTarget) (messages : List α)
    (customAccessToken : Option String) (resp : Except AxiosErr ρ) :
    Except AxiosErr ρ × List (Request α) :=
  replyRawBody c replyToken messages customAccessToken resp

/-- Embedding of `pushRawBody`, lines 679-697: one POST to
`/v2/bot/message/push` with body consisting of `to` and `messages`. -/
def pushRawBody (c : ClientState) (toTarget : JsTarget) (messages : List α)
    (customAccessToken : Option String) (resp : Except AxiosErr ρ) :
    Except AxiosErr ρ × List (Request α) :=
  let req : Request α :=
    { method := "post", url := "/v2/bot/message/push"
      authorization := authUndefCheck c customAccessToken
      contentType := "application/json"
      body := ReqBody.pushBody toTarget messages }
  match resp with
  | .ok d => (.ok d, [req])
  | .error e => (.error (handleError e), [req])

/-- Embedding of `push`, lines 699-705. -/
def push (c : ClientState) (toTarget : JsTarget) (messages : List α)
    (customAccessToken : Option String) (resp : Except AxiosErr ρ) :
    Except AxiosErr ρ × List (Request α) :=
  pushRawBody c toTarget messages customAccessToken resp

/-- Embedding of `multicastRawBody`, lines 900-918: one POST to
`/v2/bot/message/multicast` with body consisting of `to` and `messages`. -/
def multicastRawBody (c : ClientState) (toTarget : JsTarget) (messages : List α)
    (customAccessToken : Option String) (resp : Except AxiosErr ρ) :
    Except AxiosErr ρ × List (Request α) :=
  let req : Request α :=
    { method := "post", url := "/v2/bot/message/multicast"
      authorization := authUndefCheck c customAccessToken
      contentType := "application/json"
      body := ReqBody.multicastBody toTarget messages }
  match resp with
  | .ok d => (.ok d, [req])
  | .error e => (.error (handleError e), [req])

/-- Embedding of `multicast`, lines 920-926. -/
def multicast (c : ClientState) (toTarget : JsTarget) (messages : List α)
    (customAccessToken : Option String) (resp : Except AxiosErr ρ) :
    Except AxiosErr ρ × List (Request α) :=
  multicastRawBody c toTarget messages customAccessToken resp

/-- Embedding of `_send`, lines 137-150. The mode tag is a runtime string;
`push` and `multicast` are matched explicitly and every other tag falls
through to the reply branch. The `as` casts of the source are identity at
runtime, so the target value flows through unchanged. -/
def _send (c : ClientState) (sendType : String) (target : JsTarget)
    (messages : List α) (customAccessToken : Option String)
    (resp : Except AxiosErr ρ) :
    Except AxiosErr ρ × List (Request α) :=
  if sendType = "push" then
    push c target messages customAccessToken resp
  else if sendType = "multicast" then
    multicast c target messages customAccessToken resp
  else
    reply c target messages customAccessToken resp

/-- Embedding of `getUserProfile`, lines 1144-1164: a GET on
`/v2/bot/profile/` followed by the user id. On failure the first handler
(`handleError`) throws the normalized error; the `catch` then inspects
that thrown error and maps a 404 status to `null` (here `none`), while
every other failure goes through `handleError` again. -/
def getUserProfile (c : ClientState) (userId : String)
    (customAccessToken : Option String) (resp : Except AxiosErr ρ) :
    Except AxiosErr (Option ρ) × List (Request α) :=
  let req : Request α :=
    { method := "get", url := "/v2/bot/profile/" ++ userId
      authorization := authUndefCheck c customAccessToken
      contentType := "application/json", body := ReqBody.noBody }
  match resp with
  | .ok d => (.ok (some d), [req])
  | .error e =>
    let thrown := handleError e
    match thrown.response with
    | some r =>
      if r.status = 404 then (.ok none, [req])
      else (.error (handleError thrown), [req])
    | none => (.error (handleError thrown), [req])

/-- Embedding of `getGroupMemberProfile`, lines 1171-1186: a GET with no
404 softening; failures are normalized by `handleError`. -/
def getGroupMemberProfile (c : ClientState) (groupId userId : String)
    (customAccessToken : Option String) (resp : Except AxiosErr ρ) :
    Except AxiosErr ρ × List (Request α) :=
  let req : Request α :=
    { method := "get"
      url := "/v2/bot/group/" ++ groupId ++ "/member/" ++ userId
      authorization := authUndefCheck c customAccessToken
      contentType := "application/json", body := ReqBody.noBody }
  match resp with
  | .ok d => (.ok d, [req])
  | .error e => (.error (handleError e), [req])

/-- One page of a member-id listing, the response shape of
`getGroupMemberIds` and `getRoomMemberIds`. -/
structure MemberIdsPage where
  memberIds : List String
  next : Option String
deriving DecidableEq

/-- The path built by the member-id listing endpoints: the template
appends `?start=` only when `start` is truthy, mirroring
`start ? ... : ''` on lines 1222 and 1269. `kind` is `group` or `room`. -/
def memberIdsUrl (kind id : String) (start : Option String) : String :=
  "/v2/bot/" ++ kind ++ "/" ++ id ++ "/members/ids" ++
    (match start with
     | some s => if s = "" then "" else "?start=" ++ s
     | none => "")

/-- Embedding of `getGroupMemberIds`, lines 1215-1230: one GET on the
member-ids path; no 404 softening, all failures go through
`handleError`. -/
def getGroupMemberIds (c : ClientState) (groupId : String)
    (start : Option String) (customAccessToken : Option String)
    (resp : Except AxiosErr MemberIdsPage) :
    Except AxiosErr MemberIdsPage × List (Request α) :=
  let req : Request α :=
    { method := "get", url := memberIdsUrl "group" groupId start
      authorization := authUndefCheck c customAccessToken
      contentType := "application/json", body := ReqBody.noBody }
  match resp with
  | .ok d => (.ok d, [req])
  | .error e => (.error (handleError e), [req])

/-- Embedding of `getRoomMemberIds`, lines 1262-1277: identical to the
group variant, with the room path. -/
def getRoomMemberIds (c : ClientState) (roomId : String)
    (start : Option String) (customAccessToken : Option String)
    (resp : Except AxiosErr MemberIdsPage) :
    Except AxiosErr MemberIdsPage × List (Request α) :=
  let req : Request α :=
    { method := "get", url := memberIdsUrl "room" roomId start
      authorization := authUndefCheck c customAccessToken
      contentType := "application/json", body := ReqBody.noBody }
  match resp with
  | .ok d => (.ok d, [req])
  | .error e => (.error (handleError e), [req])

/-- Embedding of the do-while accumulation shared verbatim by
`getAllGroupMemberIds` (lines 1232-1255) and `getAllRoomMemberIds`
(lines 1279-1302). `fetch` is the outcome of one `getGroupMemberIds` or
`getRoomMemberIds` call as a function of the cursor handed to it, so a
failing fetch already carries the normalized error. The source's
tail-accumulating `allMemberIds = allMemberIds.concat(memberIds)` is
written as structural recursion producing the same ordered join. The
`while (continuationToken)` condition is a JS truthiness test, so the
loop exits on an absent next cursor and also on an empty-string one.
Returns `none` when the fuel bound is exhausted before the loop exits;
otherwise the caller-visible result together with the ordered trace of
cursors passed to `fetch`. -/
def memberIdsLoop (fetch : Option String → Except AxiosErr MemberIdsPage) :
    Nat → Option String →
    Option (Except AxiosErr (List String) × List (Option String))
  | 0, _ => none
  | Nat.succ fuel, cursor =>
    match fetch cursor with
    | .error e => some (.error e, [cursor])
    | .ok page =>
      match page.next with
      | none => some (.ok page.memberIds, [cursor])
      | some nxt =>
        if nxt = "" then some (.ok page.memberIds, [cursor])
        else
          match memberIdsLoop fetch fuel (some nxt) with
          | none => none
          | some (.error e, t) => some (.error e, cursor :: t)
          | some (.ok ids, t) => some (.ok (page.memberIds ++ ids), cursor :: t)

/-- Embedding of `getAllGroupMemberIds`, lines 1232-1255: runs the
accumulation loop starting from an undefined cursor, each iteration
calling `getGroupMemberIds` on the raw transport outcome for the current
cursor. -/
def getAllGroupMemberIds (c : ClientState) (groupId : String)
    (customAccessToken : Option String)
    (transport : Option String → Except AxiosErr MemberIdsPage)
    (fuel : Nat) :
    Option (Except AxiosErr (List String) × List (Option String)) :=
  memberIdsLoop
    (fun cursor =>
      (getGroupMemberIds (α := Unit) c groupId cursor customAccessToken
        (transport cursor)).1)
    fuel none

/-- Embedding of `getAllRoomMemberIds`, lines 1279-1302: the identical
loop over `getRoomMemberIds`. -/
def getAllRoomMemberIds (c : ClientState) (roomId : String)
    (customAccessToken : Option String)
    (transport : Option String → Except AxiosErr MemberIdsPage)
    (fuel : Nat) :
    Option (Except AxiosErr (List String) × List (Option String)) :=
  memberIdsLoop
    (fun cursor =>
      (getRoomMemberIds (α := Unit) c roomId cursor customAccessToken
        (transport cursor)).1)
    fuel none

/-- Embedding of `leaveGroup`, lines 1309-1325: a POST with a null JSON
body; no 404 softening. -/
def leaveGroup (c : ClientState) (groupId : String)
    (customAccessToken : Option String) (resp : Except AxiosErr ρ) :
    Except AxiosErr ρ × List (Request α) :=
  let req : Request α :=
    { method := "post", url := "/v2/bot/group/" ++ groupId ++ "/leave"
      authorization := authUndefCheck c customAccessToken
      contentType := "application/json", body := ReqBody.jsonNull }
  match resp with
  | .ok d => (.ok d, [req])
  | .error e => (.error (handleError e), [req])

/-- Embedding of `getRichMenu`, lines 1368-1388: a GET on the rich-menu
path; the `catch` maps a 404 status of the raw failure to `null` (here
`none`) and normalizes every other failure with `handleError`. -/
def getRichMenu (c : ClientState) (richMenuId : String)
    (customAccessToken : Option String) (resp : Except AxiosErr ρ) :
    Except AxiosErr (Option ρ) × List (Request α) :=
  let req : Request α :=
    { method := "get", url := "/v2/bot/richmenu/" ++ richMenuId
      authorization := authUndefCheck c customAccessToken
      contentType := "application/json", body := ReqBody.noBody }
  match resp with
  | .ok d => (.ok (some d), [req])
  | .error e =>
    match e.response with
    | some r =>
      if r.status = 404 then (.ok none, [req])
      else (.error (handleError e), [req])
    | none => (.error (handleError e), [req])

/-- Embedding of `createRichMenu`, lines 1390-1405: a POST of the rich
menu object; no 404 softening. The rich-menu payload is opaque here. -/
def createRichMenu (c : ClientState)
    (customAccessToken : Option String) (resp : Except AxiosErr ρ) :
    Except AxiosErr ρ × List (Request α) :=
  let req : Request α :=
    { method := "post", url := "/v2/bot/richmenu"
      authorization := authUndefCheck c customAccessToken
      contentType := "application/json", body := ReqBody.jsonNull }
  match resp with
  | .ok d => (.ok d, [req])
  | .error e => (.error (handleError e), [req])

/-- Embedding of `deleteRichMenu`, lines 1407-1421: a DELETE; no 404
softening. -/
def deleteRichMenu (c : ClientState) (richMenuId : String)
    (customAccessToken : Option String) (resp : Except AxiosErr ρ) :
    Except AxiosErr ρ × List (Request α) :=
  let req : Request α :=
    { method := "delete", url := "/v2/bot/richmenu/" ++ richMenuId
      authorization := authUndefCheck c customAccessToken
      contentType := "application/json", body := ReqBody.noBody }
  match resp with
  | .ok d => (.ok d, [req])
  | .error e => (.error (handleError e), [req])

/-- Embedding of `getLinkedRichMenu`, lines 1423-1443: a GET with 404
mapped to `null` by the `catch`, exactly like `getRichMenu`. -/
def getLinkedRichMenu (c : ClientState) (userId : String)
    (customAccessToken : Option String) (resp : Except AxiosErr ρ) :
    Except AxiosErr (Option ρ) × List (Request α) :=
  let req : Request α :=
    { method := "get", url := "/v2/bot/user/" ++ userId ++ "/richmenu"
      authorization := authUndefCheck c customAccessToken
      contentType := "application/json", body := ReqBody.noBody }
  match resp with
  | .ok d => (.ok (some d), [req])
  | .error e =>
    match e.response with
    | some r =>
      if r.status = 404 then (.ok none, [req])
      else (.error (handleError e), [req])
    | none => (.error (handleError e), [req])

/-- Embedding of `linkRichMenu`, lines 1445-1461: a POST with a null JSON
body; no 404 softening. -/
def linkRichMenu (c : ClientState) (userId richMenuId : String)
    (customAccessToken : Option String) (resp : Except AxiosErr ρ) :
    Except AxiosErr ρ × List (Request α) :=
  let req : Request α :=
    { method := "post"
      url := "/v2/bot/user/" ++ userId ++ "/richmenu/" ++ richMenuId
      authorization := authUndefCheck c customAccessToken
      contentType := "application/json", body := ReqBody.jsonNull }
  match resp with
  | .ok d => (.ok d, [req])
  | .error e => (.error (handleError e), [req])

/-- Embedding of `getDefaultRichMenu`, lines 1479-1498: a GET with 404
mapped to `null` by the `catch`. -/
def getDefaultRichMenu (c : ClientState)
    (customAccessToken : Option String) (resp : Except AxiosErr ρ) :
    Except AxiosErr (Option ρ) × List (Request α) :=
  let req : Request α :=
    { method := "get", url := "/v2/bot/user/all/richmenu"
      authorization := authUndefCheck c customAccessToken
      contentType := "application/json", body := ReqBody.noBody }
  match resp with
  | .ok d => (.ok (some d), [req])
  | .error e =>
    match e.response with
    | some r =>
      if r.status = 404 then (.ok none, [req])
      else (.error (handleError e), [req])
    | none => (.error (handleError e), [req])

/-- Embedding of `setDefaultRichMenu`, lines 1500-1515: a POST with a
null JSON body; no 404 softening. -/
def setDefaultRichMenu (c : ClientState) (richMenuId : String)
    (customAccessToken : Option String) (resp : Except AxiosErr ρ) :
    Except AxiosErr ρ × List (Request α) :=
  let req : Request α :=
    { method := "post", url := "/v2/bot/user/all/richmenu/" ++ richMenuId
      authorization := authUndefCheck c customAccessToken
      contentType := "application/json", body := ReqBody.jsonNull }
  match resp with
  | .ok d => (.ok d, [req])
  | .error e => (.error (handleError e), [req])

/-- The failure raised by `uploadRichMenuImage`: either the local
`invariant` preflight violation thrown before any request, or a
normalized API failure. -/
inductive UploadError where
  | invariantViolation (msg : String)
  | api (e : AxiosErr)
deriving DecidableEq

/-- Embedding of `uploadRichMenuImage`, lines 1537-1558. `detectedMime`
is the result of the `imageType(image)` collaborator on the buffer:
`none` when the type is undetectable, otherwise the detected MIME
string. The `invariant` call rejects everything but `image/jpeg` and
`image/png` before any request is issued; on the accepted types exactly
one POST goes to the rich-menu content path with the detected MIME as
Content-Type and the truthiness-checked Authorization override. -/
def uploadRichMenuImage (c : ClientState) (richMenuId : String)
    (detectedMime : Option String) (customAccessToken : Option String)
    (resp : Except AxiosErr ρ) :
    Except UploadError ρ × List (Request α) :=
  match detectedMime with
  | some mime =>
    if mime = "image/jpeg" ∨ mime = "image/png" then
      let req : Request α :=
        { method := "post"
          url := "/v2/bot/richmenu/" ++ richMenuId ++ "/content"
          authorization := authTruthyCheck c customAccessToken
          contentType := mime, body := ReqBody.richMenuBinary }
      match resp with
      | .ok d => (.ok d, [req])
      | .error e => (.error (.api (handleError e)), [req])
    else
      (.error (.invariantViolation "Image must be `image/jpeg` or `image/png`"), [])
  | none =>
    (.error (.invariantViolation "Image must be `image/jpeg` or `image/png`"), [])

/-- Embedding of `downloadRichMenuImage`, lines 1560-1580: a GET on the
rich-menu content path with the truthiness-checked Authorization
override; the `catch` maps a 404 status to `null` and normalizes every
other failure. -/
def downloadRichMenuImage (c : ClientState) (richMenuId : String)
    (customAccessToken : Option String) (resp : Except AxiosErr ρ) :
    Except AxiosErr (Option ρ) × List (Request α) :=
  let req : Request α :=
    { method := "get"
      url := "/v2/bot/richmenu/" ++ richMenuId ++ "/content"
      authorization := authTruthyCheck c customAccessToken
      contentType := "application/json", body := ReqBody.noBody }
  match resp with
  | .ok d => (.ok (some d), [req])
  | .error e =>
    match e.response with
    | some r =>
      if r.status = 404 then (.ok none, [req])
      else (.error (handleError e), [req])
    | none => (.error (handleError e), [req])

/-- Embedding of `issueLinkToken`, lines 1588-1603: a POST with a null
JSON body; no 404 softening. -/
def issueLinkToken (c : ClientState) (userId : String)
    (customAccessToken : Option String) (resp : Except AxiosErr ρ) :
    Except AxiosErr ρ × List (Request α) :=
  let req : Request α :=
    { method := "post", url := "/v2/bot/user/" ++ userId ++ "/linkToken"
      authorization := authUndefCheck c customAccessToken
      contentType := "application/json", body := ReqBody.jsonNull }
  match resp with
  | .ok d => (.ok d, [req])
  | .error e => (.error (handleError e), [req])

end Endpoints

/-- The member ids delivered by one fetch outcome: the page's ids on
success, nothing on failure. Used to state order preservation of the
pagination accumulator. -/
def pageIds : Except AxiosErr MemberIdsPage → List String
  | .ok p => p.memberIds
  | .error _ => []

/-- Example transport for the pagination claims: the first page holds
`u1, u2` and continues with cursor `tok1`; the page at `tok1` holds `u3`
and ends the listing. -/
def exTransport : Option String → Except AxiosErr MemberIdsPage
  | none => .ok { memberIds := ["u1", "u2"], next := some "tok1" }
  | some s =>
    if s = "tok1" then .ok { memberIds := ["u3"], next := none }
    else .error { message := "unexpected cursor", response := none }

/-- Example transport whose second page fetch fails with a pure
transport error. -/
def exFailTransport : Option String → Except AxiosErr MemberIdsPage
  | none => .ok { memberIds := ["u1", "u2"], next := some "tok1" }
  | some _ => .error { message := "network down", response := none }

/-- Authorization header predicted by the amended credential claim for
the endpoints that use the undefined-check pattern: a present override —
the empty string included — yields its bearer header, an absent override
yields the instance default's. Stated from the claim's words, to be
compared with the source-derived request headers. -/
def claimedAuthJson (defaultToken : String) : Option String → String
  | some t => "Bearer " ++ t
  | none => "Bearer " ++ defaultToken

/-- Authorization header predicted by the amended credential claim for
`uploadRichMenuImage` and `downloadRichMenuImage`: the override applies
only when it is a non-empty string; an empty-string or absent override
yields the instance default's header. Stated from the claim's words. -/
def claimedAuthBinary (defaultToken : String) : Option String → String
  | some t => if t = "" then "Bearer " ++ defaultToken else "Bearer " ++ t
  | none => "Bearer " ++ defaultToken

/-- One public operation of the embedded client surface, carrying its
per-call arguments, the optional credential override and the transport
outcome it will observe. Used to state configuration immutability across
every embedded operation, on success and on failure alike. -/
inductive ClientOp where
  | opSend (sendType : String) (target : JsTarget) (messages : List Unit)
      (ov : Option String) (resp : Except AxiosErr Unit)
  | opReplyRawBody (replyToken : JsTarget) (messages : List Unit)
      (ov : Option String) (resp : Except AxiosErr Unit)
  | opPushRawBody (toTarget : JsTarget) (messages : List Unit)
      (ov : Option String) (resp : Except AxiosErr Unit)
  | opMulticastRawBody (toTarget : JsTarget) (messages : List Unit)
      (ov : Option String) (resp : Except AxiosErr Unit)
  | opGetUserProfile (userId : String) (ov : Option String)
      (resp : Except AxiosErr Unit)
  | opGetGroupMemberProfile (groupId userId : String) (ov : Option String)
      (resp : Except AxiosErr Unit)
  | opGetGroupMemberIds (groupId : String) (start : Option String)
      (ov : Option String) (resp : Except AxiosErr MemberIdsPage)
  | opGetRoomMemberIds (roomId : String) (start : Option String)
      (ov : Option String) (resp : Except AxiosErr MemberIdsPage)
  | opLeaveGroup (groupId : String) (ov : Option String)
      (resp : Except AxiosErr Unit)
  | opGetRichMenu (richMenuId : String) (ov : Option String)
      (resp : Except AxiosErr Unit)
  | opCreateRichMenu (ov : Option String) (resp : Except AxiosErr Unit)
  | opDeleteRichMenu (richMenuId : String) (ov : Option String)
      (resp : Except AxiosErr Unit)
  | opGetLinkedRichMenu (userId : String) (ov : Option String)
      (resp : Except AxiosErr Unit)
  | opLinkRichMenu (userId richMenuId : String) (ov : Option String)
      (resp : Except AxiosErr Unit)
  | opGetDefaultRichMenu (ov : Option String) (resp : Except AxiosErr Unit)
  | opSetDefaultRichMenu (richMenuId : String) (ov : Option String)
      (resp : Except AxiosErr Unit)
  | opUploadRichMenuImage (richMenuId : String) (mime : Option String)
      (ov : Option String) (resp : Except AxiosErr Unit)
  | opDownloadRichMenuImage (richMenuId : String) (ov : Option String)
      (resp : Except AxiosErr Unit)
  | opIssueLinkToken (userId : String) (ov : Option String)
      (resp : Except AxiosErr Unit)

/-- State transition of one embedded operation: the post-call
configuration together with the requests issued. Every method body in
the source reads the instance fields but contains no assignment to them
— the only writes to `_accessToken`, `_channelSecret`, `_onRequest` and
`_axios` are in the constructor — so each branch carries the pre-call
configuration through unchanged. -/
def runOp (c : ClientState) : ClientOp → ClientState × List (Request Unit)
  | .opSend ty tgt msgs ov resp => (c, (_send c ty tgt msgs ov resp).2)
  | .opReplyRawBody tok msgs ov resp => (c, (replyRawBody c tok msgs ov resp).2)
  | .opPushRawBody tgt msgs ov resp => (c, (pushRawBody c tgt msgs ov resp).2)
  | .opMulticastRawBody tgt msgs ov resp => (c, (multicastRawBody c tgt msgs ov resp).2)
  | .opGetUserProfile uid ov resp => (c, (getUserProfile c uid ov resp).2)
  | .opGetGroupMemberProfile gid uid ov resp => (c, (getGroupMemberProfile c gid uid ov resp).2)
  | .opGetGroupMemberIds gid start ov resp => (c, (getGroupMemberIds c gid start ov resp).2)
  | .opGetRoomMemberIds rid start ov resp => (c, (getRoomMemberIds c rid start ov resp).2)
  | .opLeaveGroup gid ov resp => (c, (leaveGroup c gid ov resp).2)
  | .opGetRichMenu rid ov resp => (c, (getRichMenu c rid ov resp).2)
  | .opCreateRichMenu ov resp => (c, (createRichMenu c ov resp).2)
  | .opDeleteRichMenu rid ov resp => (c, (deleteRichMenu c rid ov resp).2)
  | .opGetLinkedRichMenu uid ov resp => (c, (getLinkedRichMenu c uid ov resp).2)
  | .opLinkRichMenu uid rid ov resp => (c, (linkRichMenu c uid rid ov resp).2)
  | .opGetDefaultRichMenu ov resp => (c, (getDefaultRichMenu c ov resp).2)
  | .opSetDefaultRichMenu rid ov resp => (c, (setDefaultRichMenu c rid ov resp).2)
  | .opUploadRichMenuImage rid mime ov resp => (c, (uploadRichMenuImage c rid mime ov resp).2)
  | .opDownloadRichMenuImage rid ov resp => (c, (downloadRichMenuImage c rid ov resp).2)
  | .opIssueLinkToken uid ov resp => (c, (issueLinkToken c uid ov resp).2)

/-- C1: for every mode among reply, push and multicast and every message
list, the dispatcher `_send` issues exactly one POST to the endpoint fixed
by that mode — `/v2/bot/message/reply`, `/v2/bot/message/push`,
`/v2/bot/message/multicast` respectively — with the mode-specific body
shape (replyToken with messages, to with messages, to-list with messages)
whose messages field equals the input list unchanged. -/
theorem send_dispatch_correct {α ρ : Type} (c : ClientState)
    (tok recipient : String) (recipients : List String) (msgs : List α)
    (ov : Option String) (resp : Except AxiosErr ρ) :
    (_send c "reply" (JsTarget.str tok) msgs ov resp).2 =
      [{ method := "post", url := "/v2/bot/message/reply"
         authorization := authUndefCheck c ov
         contentType := "application/json"
         body := ReqBody.replyBody (JsTarget.str tok) msgs }] ∧
    (_send c "push" (JsTarget.str recipient) msgs ov resp).2 =
      [{ method := "post", url := "/v2/bot/message/push"
         authorization := authUndefCheck c ov
         contentType := "application/json"
         body := ReqBody.pushBody (JsTarget.str recipient) msgs }] ∧
    (_send c "multicast" (JsTarget.arr recipients) msgs ov resp).2 =
      [{ method := "post", url := "/v2/bot/message/multicast"
         authorization := authUndefCheck c ov
         contentType := "application/json"
         body := ReqBody.multicastBody (JsTarget.arr recipients) msgs }] := by
  refine ⟨?_, ?_, ?_⟩ <;> cases resp <;> rfl

/-- C10: every mode tag other than `push` and `multicast` — misspelled or
arbitrary strings included, not only `reply` — falls through to the reply
branch of `_send`: the call behaves exactly like `reply` with the target
used as reply token, issuing its one request to `/v2/bot/message/reply`
rather than rejecting the unrecognized mode. -/
theorem send_fallthrough_reply {α ρ : Type} (c : ClientState)
    (sendType : String) (target : JsTarget) (msgs : List α)
    (ov : Option String) (resp : Except AxiosErr ρ)
    (hp : sendType ≠ "push") (hm : sendType ≠ "multicast") :
    _send c sendType target msgs ov resp = reply c target msgs ov resp ∧
    (_send c sendType target msgs ov resp).2 =
      [{ method := "post", url := "/v2/bot/message/reply"
         authorization := authUndefCheck c ov
         contentType := "application/json"
         body := ReqBody.replyBody target msgs }] := by
  have h : _send c sendType target msgs ov resp = reply c target msgs ov resp := by
    unfold _send
    rw [if_neg hp, if_neg hm]
  refine ⟨h, ?_⟩
  rw [h]
  cases resp <;> rfl

/-- Closed instance of the fall-through dispatch theorem at the
misspelled mode tag `Reply`. -/
theorem send_fallthrough_reply_witness :
    _send (mkLineClient (CtorArg.token "T" none)) "Reply" (JsTarget.str "rt")
        ([] : List Unit) none (Except.ok ()) =
      reply (mkLineClient (CtorArg.token "T" none)) (JsTarget.str "rt")
        ([] : List Unit) none (Except.ok ()) :=
  (send_fallthrough_reply (mkLineClient (CtorArg.token "T" none)) "Reply"
    (JsTarget.str "rt") ([] : List Unit) none (Except.ok ())
    (by decide) (by decide)).1

/-- C2 counterexample: `uploadRichMenuImage` called on a PNG buffer with
the explicitly empty-string accessToken override sends the instance
default bearer header, not the bearer header of the override. -/
theorem upload_empty_override_cex :
    ((uploadRichMenuImage (α := Unit) (ρ := Unit)
        (mkLineClient (CtorArg.token "DEFAULT" none)) "menu1"
        (some "image/png") (some "") (Except.ok ())).2.map
          Request.authorization = ["Bearer DEFAULT"]) ∧
      "Bearer DEFAULT" ≠ "Bearer " :=
  ⟨rfl, by decide⟩

/-- C2 amended: for every endpoint resolving the override with the
undefined check, a present per-call accessToken override — the empty
string included — yields the bearer header of the override and an absent
override yields the instance default; `uploadRichMenuImage` and
`downloadRichMenuImage` apply the override only when it is a non-empty
string and fall back to the instance default on an empty-string
override. -/
theorem auth_override_resolved {α ρ : Type} (c : ClientState)
    (ov : Option String) (tok gid rid uid mid recipient : String)
    (recipients : List String) (start : Option String)
    (msgs : List α) (d : ρ) (page : MemberIdsPage) :
    ((replyRawBody c (JsTarget.str tok) msgs ov (Except.ok d)).2.map
        (Request.authorization) = [claimedAuthJson c.accessToken ov]) ∧
    ((pushRawBody c (JsTarget.str recipient) msgs ov (Except.ok d)).2.map
        (Request.authorization) = [claimedAuthJson c.accessToken ov]) ∧
    ((multicastRawBody c (JsTarget.arr recipients) msgs ov (Except.ok d)).2.map
        (Request.authorization) = [claimedAuthJson c.accessToken ov]) ∧
    ((getUserProfile (α := α) c uid ov (Except.ok d)).2.map
        (Request.authorization) = [claimedAuthJson c.accessToken ov]) ∧
    ((getGroupMemberProfile (α := α) c gid uid ov (Except.ok d)).2.map
        (Request.authorization) = [claimedAuthJson c.accessToken ov]) ∧
    ((getGroupMemberIds (α := α) c gid start ov (Except.ok page)).2.map
        (Request.authorization) = [claimedAuthJson c.accessToken ov]) ∧
    ((getRoomMemberIds (α := α) c rid start ov (Except.ok page)).2.map
        (Request.authorization) = [claimedAuthJson c.accessToken ov]) ∧
    ((leaveGroup (α := α) c gid ov (Except.ok d)).2.map
        (Request.authorization) = [claimedAuthJson c.accessToken ov]) ∧
    ((getRichMenu (α := α) c mid ov (Except.ok d)).2.map
        (Request.authorization) = [claimedAuthJson c.accessToken ov]) ∧
    ((createRichMenu (α := α) c ov (Except.ok d)).2.map
        (Request.authorization) = [claimedAuthJson c.accessToken ov]) ∧
    ((deleteRichMenu (α := α) c mid ov (Except.ok d)).2.map
        (Request.authorization) = [claimedAuthJson c.accessToken ov]) ∧
    ((getLinkedRichMenu (α := α) c uid ov (Except.ok d)).2.map
        (Request.authorization) = [claimedAuthJson c.accessToken ov]) ∧
    ((linkRichMenu (α := α) c uid mid ov (Except.ok d)).2.map
        (Request.authorization) = [claimedAuthJson c.accessToken ov]) ∧
    ((getDefaultRichMenu (α := α) c ov (Except.ok d)).2.map
        (Request.authorization) = [claimedAuthJson c.accessToken ov]) ∧
    ((setDefaultRichMenu (α := α) c mid ov (Except.ok d)).2.map
        (Request.authorization) = [claimedAuthJson c.accessToken ov]) ∧
    ((issueLinkToken (α := α) c uid ov (Except.ok d)).2.map
        (Request.authorization) = [claimedAuthJson c.accessToken ov]) ∧
    ((uploadRichMenuImage (α := α) c mid (some "image/png") ov (Except.ok d)).2.map
        (Request.authorization) = [claimedAuthBinary c.accessToken ov]) ∧
    ((downloadRichMenuImage (α := α) c mid ov (Except.ok d)).2.map
        (Request.authorization) = [claimedAuthBinary c.accessToken ov]) := by
  cases ov <;>
    exact ⟨rfl, rfl, rfl, rfl, rfl, rfl, rfl, rfl, rfl, rfl, rfl, rfl, rfl,
      rfl, rfl, rfl, rfl, rfl⟩

/-- A successful accumulation run yields exactly the in-order
concatenation of the member ids of the pages fetched along the cursor
trace. -/
theorem memberIdsLoop_ok_join
    (fetch : Option String → Except AxiosErr MemberIdsPage) :
    ∀ (fuel : Nat) (cursor : Option String) (ids : List String)
      (trace : List (Option String)),
      memberIdsLoop fetch fuel cursor = some (Except.ok ids, trace) →
      ids = (trace.map fun cu => pageIds (fetch cu)).flatten := by
  intro fuel
  induction fuel with
  | zero => intro cursor ids trace h; simp [memberIdsLoop] at h
  | succ n ih =>
    intro cursor ids trace h
    unfold memberIdsLoop at h
    split at h
    next e heq => simp at h
    next page heq =>
      split at h
      next hn =>
        simp only [Option.some.injEq, Prod.mk.injEq, Except.ok.injEq] at h
        obtain ⟨h1, h2⟩ := h
        subst h1; subst h2
        simp [pageIds, heq]
      next nxt hn =>
        split at h
        next hemp =>
          simp only [Option.some.injEq, Prod.mk.injEq, Except.ok.injEq] at h
          obtain ⟨h1, h2⟩ := h
          subst h1; subst h2
          simp [pageIds, heq]
        next hemp =>
          split at h
          next hrec => simp at h
          next e t hrec => simp at h
          next ids' t hrec =>
            simp only [Option.some.injEq, Prod.mk.injEq, Except.ok.injEq] at h
            obtain ⟨h1, h2⟩ := h
            subst h1; subst h2
            have := ih (some nxt) ids' t hrec
            simp [pageIds, heq, this]

/-- If a fetch performed along the cursor trace of an accumulation run
failed, the whole run resolves to exactly that error: no member-id list,
partial or otherwise, is ever produced. -/
theorem memberIdsLoop_error_of_mem
    (fetch : Option String → Except AxiosErr MemberIdsPage) :
    ∀ (fuel : Nat) (cursor : Option String)
      (res : Except AxiosErr (List String)) (trace : List (Option String)),
      memberIdsLoop fetch fuel cursor = some (res, trace) →
      ∀ cu ∈ trace, ∀ e, fetch cu = Except.error e → res = Except.error e := by
  intro fuel
  induction fuel with
  | zero => intro cursor res trace h; simp [memberIdsLoop] at h
  | succ n ih =>
    intro cursor res trace h cu hmem e he
    unfold memberIdsLoop at h
    split at h
    next e0 heq =>
      simp only [Option.some.injEq, Prod.mk.injEq] at h
      obtain ⟨h1, h2⟩ := h
      subst h2
      simp only [List.mem_singleton] at hmem
      subst hmem
      rw [heq] at he
      rw [← h1, (Except.error.inj he)]
    next page heq =>
      split at h
      next hn =>
        simp only [Option.some.injEq, Prod.mk.injEq] at h
        obtain ⟨h1, h2⟩ := h
        subst h2
        simp only [List.mem_singleton] at hmem
        subst hmem
        rw [heq] at he
        exact absurd he (by simp)
      next nxt hn =>
        split at h
        next hemp =>
          simp only [Option.some.injEq, Prod.mk.injEq] at h
          obtain ⟨h1, h2⟩ := h
          subst h2
          simp only [List.mem_singleton] at hmem
          subst hmem
          rw [heq] at he
          exact absurd he (by simp)
        next hemp =>
          split at h
          next hrec => simp at h
          next e' t hrec =>
            simp only [Option.some.injEq, Prod.mk.injEq] at h
            obtain ⟨h1, h2⟩ := h
            subst h2
            rcases List.mem_cons.mp hmem with hcu | hcu
            · subst hcu; rw [heq] at he; exact absurd he (by simp)
            · rw [← h1]
              exact ih (some nxt) (Except.error e') t hrec cu hcu e he
          next ids' t hrec =>
            simp only [Option.some.injEq, Prod.mk.injEq] at h
            obtain ⟨h1, h2⟩ := h
            subst h2
            rcases List.mem_cons.mp hmem with hcu | hcu
            · subst hcu; rw [heq] at he; exact absurd he (by simp)
            · have := ih (some nxt) (Except.ok ids') t hrec cu hcu e he
              exact absurd this (by simp)

/-- C3: the accumulators start from an undefined cursor, fetch page by
page, append each page's member ids in order and follow the next cursor
until it is absent, so a successful run returns the in-order
concatenation of the fetched pages; on the two-page example the group
and room accumulators both return the three ids in order with exactly
two fetches, the second passing cursor `tok1` as the `start` query
parameter. -/
theorem pagination_order_and_example (c : ClientState) :
    (∀ (fetch : Option String → Except AxiosErr MemberIdsPage)
       (fuel : Nat) (cursor : Option String) (ids : List String)
       (trace : List (Option String)),
       memberIdsLoop fetch fuel cursor = some (Except.ok ids, trace) →
       ids = (trace.map fun cu => pageIds (fetch cu)).flatten) ∧
    getAllGroupMemberIds c "g1" none exTransport 2 =
      some (Except.ok ["u1", "u2", "u3"], [none, some "tok1"]) ∧
    getAllRoomMemberIds c "r1" none exTransport 2 =
      some (Except.ok ["u1", "u2", "u3"], [none, some "tok1"]) ∧
    ([none, some "tok1"] : List (Option String)).length = 2 ∧
    ([none, some "tok1"] : List (Option String)).map (memberIdsUrl "group" "g1") =
      ["/v2/bot/group/g1/members/ids",
       "/v2/bot/group/g1/members/ids?start=tok1"] := by
  exact ⟨fun fetch => memberIdsLoop_ok_join fetch, rfl, rfl, rfl, rfl⟩

/-- Closed instance of the pagination order theorem on the two-page
example transport. -/
theorem pagination_order_and_example_witness :
    (["u1", "u2", "u3"] : List String) =
      (([none, some "tok1"] : List (Option String)).map
        (fun cu => pageIds (exTransport cu))).flatten :=
  (pagination_order_and_example (mkLineClient (CtorArg.token "T" none))).1
    exTransport 2 none ["u1", "u2", "u3"] [none, some "tok1"] rfl

/-- C4: if any page fetch of the accumulation fails, the group and room
accumulators resolve to exactly the normalized error of that fetch — the
result is the error alone, so no partial prefix of the accumulated
member ids is ever returned to the caller. -/
theorem pagination_abort_on_failure :
    (∀ (c : ClientState) (groupId : String) (ov : Option String)
       (transport : Option String → Except AxiosErr MemberIdsPage)
       (fuel : Nat) (res : Except AxiosErr (List String))
       (trace : List (Option String)),
       getAllGroupMemberIds c groupId ov transport fuel = some (res, trace) →
       ∀ cu ∈ trace, ∀ e, transport cu = Except.error e →
         res = Except.error (handleError e)) ∧
    (∀ (c : ClientState) (roomId : String) (ov : Option String)
       (transport : Option String → Except AxiosErr MemberIdsPage)
       (fuel : Nat) (res : Except AxiosErr (List String))
       (trace : List (Option String)),
       getAllRoomMemberIds c roomId ov transport fuel = some (res, trace) →
       ∀ cu ∈ trace, ∀ e, transport cu = Except.error e →
         res = Except.error (handleError e)) := by
  constructor
  · intro c gid ov transport fuel res trace h cu hmem e he
    refine memberIdsLoop_error_of_mem
      (fun cursor =>
        (getGroupMemberIds (α := Unit) c gid cursor ov (transport cursor)).1)
      fuel none res trace h cu hmem (handleError e) ?_
    simp [getGroupMemberIds, he]
  · intro c rid ov transport fuel res trace h cu hmem e he
    refine memberIdsLoop_error_of_mem
      (fun cursor =>
        (getRoomMemberIds (α := Unit) c rid cursor ov (transport cursor)).1)
      fuel none res trace h cu hmem (handleError e) ?_
    simp [getRoomMemberIds, he]

/-- Closed instance of the abort theorem on a transport whose second
page fetch fails. -/
theorem pagination_abort_on_failure_witness :
    (Except.error { message := "network down", response := none }
      : Except AxiosErr (List String)) =
      Except.error (handleError { message := "network down", response := none }) :=
  (pagination_abort_on_failure).1 (mkLineClient (CtorArg.token "T" none)) "g1"
    none exFailTransport 5
    (Except.error { message := "network down", response := none })
    [none, some "tok1"] rfl (some "tok1") (by simp)
    { message := "network down", response := none } rfl

/-- The example API failure of the spec: a 400 response whose body has
one field-level detail. -/
def exApiFailure : AxiosErr :=
  { message := "Request failed with status code 400"
    response := some
      { status := 400
        data := some
          { message := "The request body has 1 error(s)"
            details := some
              [{ property := "messages[0].type"
                 message := "may not be null" }] } } }

/-- C5: on a failure carrying a structured body with a top-level message
and a non-empty details list, the normalizer raises a typed error whose
message is the body message prefixed with `LINE API - ` followed by one
`- property: message` line per detail in order, the original response
kept on the error; on the spec's example body the message equals the
literal given there. -/
theorem api_error_message_format (err : AxiosErr) (st : Nat) (m : String)
    (ds : List ErrorDetail)
    (h : err.response =
      some { status := st, data := some { message := m, details := some ds } })
    (hds : ds ≠ []) :
    handleError err =
      { message := "LINE API - " ++ m ++
          String.join (ds.map fun d => "\n- " ++ d.property ++ ": " ++ d.message)
        response := err.response } ∧
    handleError exApiFailure =
      { message :=
          "LINE API - The request body has 1 error(s)\n- messages[0].type: may not be null"
        response := exApiFailure.response } := by
  constructor
  · obtain ⟨msg, resp⟩ := err
    obtain rfl : resp = _ := h
    simp only [handleError, apiErrorMessage]
    rw [if_pos (List.length_pos.mpr hds)]
    rfl
  · rfl

/-- Closed instance of the error-formatting theorem on the spec's
example body, yielding the literal formatted message. -/
theorem api_error_message_format_witness :
    handleError exApiFailure =
      { message :=
          "LINE API - The request body has 1 error(s)\n- messages[0].type: may not be null"
        response := exApiFailure.response } :=
  (api_error_message_format exApiFailure 400 "The request body has 1 error(s)"
    [{ property := "messages[0].type", message := "may not be null" }]
    rfl (by decide)).2

/-- C6: on a failure with no structured body — the response absent
entirely, or present without a data body — the normalizer raises a typed
error carrying the raw transport message and the original response, and
a call observing such a failure resolves to that raised error, never to
a success value. -/
theorem transport_error_passthrough {ρ : Type} (err : AxiosErr)
    (h : err.response = none ∨ ∃ r, err.response = some r ∧ r.data = none) :
    handleError err = { message := err.message, response := err.response } ∧
    ∀ (c : ClientState) (tok : String) (msgs : List Unit) (ov : Option String),
      (replyRawBody (ρ := ρ) c (JsTarget.str tok) msgs ov (Except.error err)).1 =
        Except.error { message := err.message, response := err.response } := by
  have h1 : handleError err = { message := err.message, response := err.response } := by
    obtain ⟨m, resp⟩ := err
    rcases h with h | ⟨r, hr, hd⟩
    · obtain rfl : resp = none := h
      rfl
    · obtain rfl : resp = some r := hr
      obtain ⟨st, dat⟩ := r
      obtain rfl : dat = none := hd
      rfl
  refine ⟨h1, fun c tok msgs ov => ?_⟩
  simp [replyRawBody, h1]

/-- Closed instance of the transport-failure passthrough theorem on a
timeout-style failure with no response. -/
theorem transport_error_passthrough_witness :
    handleError { message := "ETIMEDOUT", response := none } =
      { message := "ETIMEDOUT", response := none } :=
  (transport_error_passthrough (ρ := Unit)
    { message := "ETIMEDOUT", response := none } (Or.inl rfl)).1

/-- C7: of the embedded operations, exactly the five read-only lookups —
user profile, rich menu by id, linked rich menu, default rich menu and
rich menu image download — map an HTTP 404 failure to a null result,
while the member-id listings, the member profile lookup, and every
mutation operation resolve to the normalized error on 404. -/
theorem notFound_softening {ρ : Type} (c : ClientState)
    (uid gid rid mid tok recipient : String) (recipients : List String)
    (msgs : List Unit) (start ov : Option String)
    (e : AxiosErr) (r : ErrResponse)
    (hr : e.response = some r) (h404 : r.status = 404) :
    (getUserProfile (α := Unit) (ρ := ρ) c uid ov (Except.error e)).1 = Except.ok none ∧
    (getRichMenu (α := Unit) (ρ := ρ) c mid ov (Except.error e)).1 = Except.ok none ∧
    (getLinkedRichMenu (α := Unit) (ρ := ρ) c uid ov (Except.error e)).1 = Except.ok none ∧
    (getDefaultRichMenu (α := Unit) (ρ := ρ) c ov (Except.error e)).1 = Except.ok none ∧
    (downloadRichMenuImage (α := Unit) (ρ := ρ) c mid ov (Except.error e)).1 = Except.ok none ∧
    (getGroupMemberIds (α := Unit) c gid start ov (Except.error e)).1 =
      Except.error (handleError e) ∧
    (getRoomMemberIds (α := Unit) c rid start ov (Except.error e)).1 =
      Except.error (handleError e) ∧
    (getGroupMemberProfile (α := Unit) (ρ := ρ) c gid uid ov (Except.error e)).1 =
      Except.error (handleError e) ∧
    (replyRawBody (ρ := ρ) c (JsTarget.str tok) msgs ov (Except.error e)).1 =
      Except.error (handleError e) ∧
    (pushRawBody (ρ := ρ) c (JsTarget.str recipient) msgs ov (Except.error e)).1 =
      Except.error (handleError e) ∧
    (multicastRawBody (ρ := ρ) c (JsTarget.arr recipients) msgs ov (Except.error e)).1 =
      Except.error (handleError e) ∧
    (leaveGroup (α := Unit) (ρ := ρ) c gid ov (Except.error e)).1 =
      Except.error (handleError e) ∧
    (createRichMenu (α := Unit) (ρ := ρ) c ov (Except.error e)).1 =
      Except.error (handleError e) ∧
    (deleteRichMenu (α := Unit) (ρ := ρ) c mid ov (Except.error e)).1 =
      Except.error (handleError e) ∧
    (linkRichMenu (α := Unit) (ρ := ρ) c uid mid ov (Except.error e)).1 =
      Except.error (handleError e) ∧
    (setDefaultRichMenu (α := Unit) (ρ := ρ) c mid ov (Except.error e)).1 =
      Except.error (handleError e) ∧
    (issueLinkToken (α := Unit) (ρ := ρ) c uid ov (Except.error e)).1 =
      Except.error (handleError e) ∧
    (uploadRichMenuImage (α := Unit) (ρ := ρ) c mid (some "image/png") ov
        (Except.error e)).1 = Except.error (UploadError.api (handleError e)) := by
  obtain ⟨msg, resp⟩ := e
  obtain rfl : resp = some r := hr
  obtain ⟨st, dat⟩ := r
  obtain rfl : st = 404 := h404
  cases dat <;>
    exact ⟨rfl, rfl, rfl, rfl, rfl, rfl, rfl, rfl, rfl, rfl, rfl, rfl, rfl,
      rfl, rfl, rfl, rfl, rfl⟩

/-- Closed instance of the 404 softening theorem: a 404 yields null from
the profile lookup and a raised error from the member-id listing. -/
theorem notFound_softening_witness :
    (getUserProfile (α := Unit) (ρ := Unit)
      (mkLineClient (CtorArg.token "T" none)) "U1" none
      (Except.error { message := "Request failed with status code 404"
                      response := some { status := 404, data := none } })).1 =
      Except.ok none ∧
    (getGroupMemberIds (α := Unit)
      (mkLineClient (CtorArg.token "T" none)) "g1" none none
      (Except.error { message := "Request failed with status code 404"
                      response := some { status := 404, data := none } })).1 =
      Except.error (handleError
        { message := "Request failed with status code 404"
          response := some { status := 404, data := none } }) :=
  ⟨(notFound_softening (ρ := Unit) (mkLineClient (CtorArg.token "T" none))
      "U1" "g1" "r1" "m1" "rt" "to" [] [] none none
      { message := "Request failed with status code 404"
        response := some { status := 404, data := none } }
      { status := 404, data := none } rfl rfl).1,
   (notFound_softening (ρ := Unit) (mkLineClient (CtorArg.token "T" none))
      "U1" "g1" "r1" "m1" "rt" "to" [] [] none none
      { message := "Request failed with status code 404"
        response := some { status := 404, data := none } }
      { status := 404, data := none } rfl rfl).2.2.2.2.2.1⟩

/-- C8: an upload whose detected MIME type is neither JPEG nor PNG — an
undetectable buffer included — fails the local invariant and issues no
request at all, while a JPEG or PNG detection issues exactly one POST to
the rich-menu content path with the detected MIME as Content-Type. -/
theorem upload_preflight {α ρ : Type} (c : ClientState) (richMenuId : String)
    (mime : Option String) (mimeOk : String) (ov : Option String)
    (resp : Except AxiosErr ρ)
    (hbad : mime ≠ some "image/jpeg" ∧ mime ≠ some "image/png")
    (hgood : mimeOk = "image/jpeg" ∨ mimeOk = "image/png") :
    uploadRichMenuImage (α := α) c richMenuId mime ov resp =
      (Except.error (UploadError.invariantViolation
        "Image must be `image/jpeg` or `image/png`"), []) ∧
    (uploadRichMenuImage (α := α) c richMenuId (some mimeOk) ov resp).2 =
      [{ method := "post"
         url := "/v2/bot/richmenu/" ++ richMenuId ++ "/content"
         authorization := authTruthyCheck c ov
         contentType := mimeOk, body := ReqBody.richMenuBinary }] := by
  constructor
  · obtain ⟨h1, h2⟩ := hbad
    cases mime with
    | none => rfl
    | some m =>
      have hm1 : m ≠ "image/jpeg" := fun hh => h1 (by rw [hh])
      have hm2 : m ≠ "image/png" := fun hh => h2 (by rw [hh])
      simp [uploadRichMenuImage, hm1, hm2]
  · simp only [uploadRichMenuImage, if_pos hgood]
    cases resp <;> rfl

/-- Closed instance of the upload preflight theorem: a GIF detection is
rejected with no request, a PNG detection posts with its MIME type. -/
theorem upload_preflight_witness :
    uploadRichMenuImage (α := Unit) (ρ := Unit)
        (mkLineClient (CtorArg.token "T" none)) "menu1" (some "image/gif")
        none (Except.ok ()) =
      (Except.error (UploadError.invariantViolation
        "Image must be `image/jpeg` or `image/png`"), []) ∧
    (uploadRichMenuImage (α := Unit) (ρ := Unit)
        (mkLineClient (CtorArg.token "T" none)) "menu1" (some "image/png")
        none (Except.ok ())).2 =
      [{ method := "post"
         url := "/v2/bot/richmenu/" ++ "menu1" ++ "/content"
         authorization := authTruthyCheck (mkLineClient (CtorArg.token "T" none)) none
         contentType := "image/png", body := ReqBody.richMenuBinary }] :=
  upload_preflight (mkLineClient (CtorArg.token "T" none)) "menu1"
    (some "image/gif") "image/png" none (Except.ok ())
    ⟨by decide, by decide⟩ (Or.inr rfl)

/-- C9: the configuration captured at construction is immutable: every
embedded operation — credential overrides and failing transports
included — leaves the stored default access token, channel secret,
origin and request observer unchanged. -/
theorem config_immutable (c : ClientState) (op : ClientOp) :
    (runOp c op).1 = c ∧
    (runOp c op).1.accessToken = c.accessToken ∧
    (runOp c op).1.channelSecret = c.channelSecret ∧
    (runOp c op).1.origin = c.origin ∧
    (runOp c op).1.onRequestCustom = c.onRequestCustom := by
  have h : (runOp c op).1 = c := by cases op <;> rfl
  exact ⟨h, by rw [h], by rw [h], by rw [h], by rw [h]⟩

end LineClientModel
